import Mathlib

/-!
Shallow embedding of the `cio` repository modules `asset_inventory.rs` and
`recorded_meetings.rs`, together with theorems settling the specification
claims about them.

Conventions of the embedding:
* Rust `String` is Lean `String`; lengths are counted in characters (the
  strings the claims exercise are ASCII, where byte length and character
  length coincide).
* `DateTime<Utc>` values are carried as their RFC3339 strings: no claim
  computes with time, the code only copies and formats these values.
* Byte buffers (downloaded file contents) are carried as the string of
  their decoded contents; `from_utf8(..).unwrap()` is the identity under
  this convention.
* Side effects (HTTP requests, Drive calls, database upserts) are made
  explicit: each function returns the list of effects it performs, and
  results of external calls are supplied by an environment record.
* Calls that `unwrap()` an `Option` and would panic on `None` are modelled
  with a default value; no claim depends on a panicking path.
-/

namespace Cio

/-! ## String primitives used by the sources -/

/-- Embeds Rust `str::to_uppercase` (ASCII case mapping; the names the
claims exercise are ASCII). -/
def toUppercase (s : String) : String :=
  String.mk (s.data.map Char.toUpper)

/-- Embeds Rust `str::replace(c, "")` with a single-character pattern:
removing every occurrence of the character `c`. -/
def removeChar (c : Char) (s : String) : String :=
  String.mk (s.data.filter (fun x => x ≠ c))

/-- Character-list form of Rust `str::trim`: drop leading and trailing
whitespace. -/
def rustTrimList (s : List Char) : List Char :=
  ((s.dropWhile Char.isWhitespace).reverse.dropWhile Char.isWhitespace).reverse

/-- Embeds Rust `str::trim`. -/
def rustTrim (s : String) : String :=
  String.mk (rustTrimList s.data)

/-! ## `asset_inventory.rs` -/

/-- The `NewAssetItem` struct of `asset_inventory.rs`. -/
structure NewAssetItem where
  name : String
  picture : String
  type_ : String
  qualities : List String
  status : String
  manufacturer : String
  model_number : String
  serial_number : String
  purchase_price : Float
  current_employee_borrowing : String
  conference_room_using : List String
  notes : String
  barcode : String
  barcode_png : String
  barcode_svg : String
  barcode_pdf_label : String
  cio_company_id : Int
deriving Repr

/-- The cleaning pipeline at the head of `NewAssetItem::generate_barcode`:
uppercase the name, strip the characters `' '`, `'/'`, `'('`, `')'`,
`'-'`, `'\''` (in source order), then trim. -/
def cleanName (name : String) : String :=
  rustTrim
    (removeChar '\''
      (removeChar '-'
        (removeChar ')'
          (removeChar '('
            (removeChar '/'
              (removeChar ' ' (toUppercase name)))))))

/-- The `while barcode.len() < max_barcode_len` loop of `generate_barcode`
(`max_barcode_len = 13`): prepend `'0'` until the length reaches 13.
When the input is already at least 13 characters long the source only
prints a warning and keeps the string unchanged. -/
def padZeros (s : List Char) : List Char :=
  if s.length < 13 then padZeros ('0' :: s) else s
termination_by 13 - s.length
decreasing_by simp [List.length_cons]; omega

/-- String form of the padding loop. -/
def padBarcode (s : String) : String :=
  String.mk (padZeros s.data)

/-- `NewAssetItem::generate_barcode`: derive and store the barcode from
the name. -/
def generate_barcode (item : NewAssetItem) : NewAssetItem :=
  { item with barcode := padBarcode (cleanName item.name) }

/-! ### `generate_pdf_barcode_label`

The PDF is modelled structurally: the record below captures the document
pieces the source assembles (content-stream operations, the single page
with its `MediaBox`, and the two placed images).  Numeric values are
rationals; every constant the claims touch (`3.0 * 72.0`, `2.0 * 72.0`,
`0`) is exactly representable in the source's `f64` as well.
`image_to_pdf_object` lives in `swag_inventory.rs` (outside the sources
given), so the intrinsic dimensions it reports for the logo and the
barcode PNG are taken as parameters. -/

/-- The width/height information `image_to_pdf_object` returns for an
embedded image. -/
structure ImageInfo where
  width : ℚ
  height : ℚ

/-- One text-stream operation of the label's content stream.
`nextLineShow` models the PDF quote operator (move to next line and show
text). -/
inductive PdfOp
  | BT
  | Tf (font : String) (size : ℚ)
  | TL (leading : ℚ)
  | Td (x y : ℚ)
  | Tj (text : String)
  | nextLineShow (text : String)
  | ET
deriving Repr, DecidableEq

/-- An image placed on the page at a position with a display size. -/
structure PlacedImage where
  x : ℚ
  y : ℚ
  width : ℚ
  height : ℚ
deriving Repr, DecidableEq

/-- The parts of the generated label document the source constructs. -/
structure PdfLabel where
  version : String
  baseFont : String
  operations : List PdfOp
  pageCount : Nat
  mediaBox : List ℚ
  logo : PlacedImage
  barcodeImage : PlacedImage
deriving Repr, DecidableEq

/-- `NewAssetItem::generate_pdf_barcode_label`, as the structural content
of the document it saves.  `logoInfo` and `pngInfo` are the dimensions
`image_to_pdf_object` reports for `oxide_logo.png` and the barcode PNG
bytes. -/
def generate_pdf_barcode_label (item : NewAssetItem) (logoInfo pngInfo : ImageInfo) :
    PdfLabel :=
  let pdf_width : ℚ := 3 * 72
  let pdf_height : ℚ := 2 * 72
  let pdf_margin : ℚ := 5
  let font_size : ℚ := 9
  let ops : List PdfOp :=
    [ .BT
    , .Tf "F1" (font_size / (125/100))
    , .TL (font_size * (125/100))
    , .Td pdf_margin (font_size * (9/10) * 3)
    , .Tj item.barcode
    , .Tf "F1" font_size
    , .nextLineShow item.name
    , .nextLineShow ("Type: " ++ item.type_)
    , .ET ]
  -- Scale the logo so its width fits, keeping the aspect ratio.
  let logoWidth := pdf_width - pdf_margin * 2
  let logoHeight := logoInfo.height * (logoWidth / logoInfo.width)
  let logoPos : ℚ × ℚ := ((pdf_width - logoWidth) / 2, pdf_height - logoHeight - pdf_margin)
  let imgPos : ℚ × ℚ :=
    ((pdf_width - pngInfo.width) / 2,
      pdf_height - pngInfo.height - logoHeight - pdf_margin * 2)
  { version := "1.5"
  , baseFont := "Courier"
  , operations := ops
  , pageCount := 1
  , mediaBox := [0, 0, pdf_width, pdf_height]
  , logo := ⟨logoPos.1, logoPos.2, logoWidth, logoHeight⟩
  , barcodeImage := ⟨imgPos.1, imgPos.2, pngInfo.width, pngInfo.height⟩ }

/-! ### `AssetItem::print_label` -/

/-- The fields of `Company` that `print_label` reads. -/
structure Company where
  id : Int
  printer_url : String
deriving Repr, DecidableEq

/-- The `AssetItem` struct generated by the `#[db]` macro: the
`NewAssetItem` fields plus the database id and the Airtable record id. -/
structure AssetItem extends NewAssetItem where
  id : Int
  airtable_record_id : String
deriving Repr

/-- The `PrintLabelsRequest` body of the printer call. -/
structure PrintLabelsRequest where
  url : String
  quantity : Int
deriving Repr, DecidableEq

/-- An outbound HTTP POST issued by `print_label`. -/
structure HttpPost where
  url : String
  body : PrintLabelsRequest
deriving Repr, DecidableEq

/-- The HTTP response the printer returns. -/
structure HttpResponse where
  status : Nat
  body : String
deriving Repr, DecidableEq

/-- `AssetItem::print_label`.  The company row `self.company(db)` resolves
to is a parameter, as is the printer's HTTP response.  The result is the
list of POST requests sent together with `.ok` for normal return or
`.error` for the `panic!` branch. -/
def print_label (item : AssetItem) (company : Company) (resp : HttpResponse) :
    List HttpPost × Except String Unit :=
  if (rustTrim item.barcode_pdf_label).isEmpty then
    ([], .ok ())
  else if company.printer_url.isEmpty then
    ([], .ok ())
  else
    let req : HttpPost :=
      { url := company.printer_url ++ "/zebra"
      , body := { url := item.barcode_pdf_label, quantity := 1 } }
    if resp.status = 202 then
      ([req], .ok ())
    else
      ([req], .error ("[print]: status_code: " ++ toString resp.status ++ ", body: " ++ resp.body))

/-! ## `recorded_meetings.rs` -/

/-- The `NewRecordedMeeting` struct.  `DateTime<Utc>` fields are carried
as their RFC3339 strings. -/
structure NewRecordedMeeting where
  name : String
  description : String
  start_time : String
  end_time : String
  video : String
  chat_log_link : String
  chat_log : String
  is_recurring : Bool
  attendees : List String
  transcript : String
  transcript_id : String
  google_event_id : String
  event_link : String
  location : String
  cio_company_id : Int
deriving Repr, DecidableEq

/-- The `RecordedMeeting` struct generated by the `#[db]` macro:
`NewRecordedMeeting` plus the database id and the Airtable record id. -/
structure RecordedMeeting extends NewRecordedMeeting where
  id : Int
  airtable_record_id : String
deriving Repr, DecidableEq

/-- Modelled from the spec: `crate::utils::truncate` is used by
`update_airtable_record` but `utils.rs` is not among the given sources.
The spec bounds the merged transcript at 100000 characters, so `truncate`
keeps at most the first `n` characters of `s`. -/
def truncate (s : String) (n : Nat) : String :=
  String.mk (s.data.take n)

/-- `UpdateAirtableRecord<RecordedMeeting>::update_airtable_record`:
`self` is the freshly-fetched database record being pushed, `record` the
existing Airtable record.  A non-empty Airtable `transcript_id` /
`transcript` overwrites the database value; the merged transcript is then
truncated to 100000 characters. -/
def update_airtable_record (self record : RecordedMeeting) : RecordedMeeting :=
  let self :=
    if ¬record.transcript_id.isEmpty then
      { self with transcript_id := record.transcript_id }
    else self
  let self :=
    if ¬record.transcript.isEmpty then
      { self with transcript := record.transcript }
    else self
  { self with transcript := truncate self.transcript 100000 }

/-! ### `refresh_zoom_recorded_meetings` -/

/-- The Zoom recording file types the source matches on
(`GetAccountCloudRecordingResponseMeetingsFilesFileType`); `Other`
collects the remaining variants of the API enum, which the source handles
with its catch-all arms. -/
inductive ZoomFileType
  | Mp4
  | M4A
  | Tb
  | Transcript
  | Chat
  | Cc
  | Csv
  | Noop
  | FallthroughString
  | Other
deriving Repr, DecidableEq

/-- `FileInfo::to_extension`. -/
def to_extension (t : ZoomFileType) : String :=
  match t with
  | .Mp4 => "-video.mp4"
  | .M4A => "-audio.m4a"
  | .Tb => ".json"
  | .Transcript => "-transcript.vtt"
  | .Chat => "-chat.txt"
  | .Cc => "-closed-captions.vtt"
  | .Csv => ".csv"
  | _ => ""

/-- `FileInfo::get_mime_type`. -/
def get_mime_type (t : ZoomFileType) : String :=
  match t with
  | .Mp4 => "video/mp4"
  | .M4A => "audio/m4a"
  | .Tb => "application/json"
  | .Transcript => "text/vtt"
  | .Chat => "text/plain"
  | .Cc => "text/vtt"
  | .Csv => "text/csv"
  | _ => ""

/-- Status of a Zoom recording file
(`GetAccountCloudRecordingResponseMeetingsFilesStatus`). -/
inductive ZoomRecordingStatus
  | Completed
  | OtherStatus
deriving Repr, DecidableEq

/-- One entry of `meeting.recording_files`. -/
structure ZoomRecordingFile where
  file_type : Option ZoomFileType
  status : Option ZoomRecordingStatus
  download_url : String
  recording_end : String
  id : String
  meeting_id : String
deriving Repr, DecidableEq

/-- One recorded meeting returned by the Zoom listing. -/
structure ZoomMeeting where
  topic : String
  start_time : Option String
  host_id : String
  uuid : String
  recording_files : List ZoomRecordingFile
deriving Repr, DecidableEq

/-- The `users` table row the host lookup returns. -/
structure ZoomUser where
  email : String
  full_name : String
deriving Repr, DecidableEq

/-- The externally observable actions of the Zoom refresh. -/
inductive ZoomEffect
  | createFolder (driveId parentId name : String)
  | download (url : String)
  | uploadFile (driveId parentId name mimeType : String)
  | deleteRecording (meetingId recordingId : String)
  | upsertMeeting (m : NewRecordedMeeting)
deriving Repr, DecidableEq

/-- Results of the external calls `refresh_zoom_recorded_meetings`
makes: Drive ids for created folders and uploaded files, downloaded
bytes, the `users`-table host lookup, the kebab-case conversion from the
`inflector` crate, the refreshed Zoom access token, and the ambient
`Utc::now()`. -/
structure ZoomEnv where
  sharedDriveId : String
  recordingsFolderId : String
  folderId : String → String
  fileId : String → String
  download : String → String
  host : String → ZoomUser
  kebab : String → String
  accessToken : String
  now : String
  companyId : Int

/-- The per-file scan state accumulated across `meeting.recording_files`
(the mutable locals declared before the inner loop). -/
structure ZoomScan where
  transcript : String
  transcript_id : String
  video : String
  video_html_link : String
  chat_log_link : String
  chat_log : String
  end_time : String
deriving Repr, DecidableEq

/-- One iteration of the `for recording in &meeting.recording_files`
loop: possibly skip, otherwise download, upload to Drive, record the
fields for the matched file type, and delete the Zoom copy. -/
def processZoomRecording (env : ZoomEnv) (meeting : ZoomMeeting) (startFolderId : String)
    (acc : ZoomScan × List ZoomEffect) (recording : ZoomRecordingFile) :
    ZoomScan × List ZoomEffect :=
  let (scan, effects) := acc
  -- `recording.file_type.as_ref().unwrap()`; `None` would panic in Rust.
  let file_type := recording.file_type.getD .Noop
  if file_type = .Noop ∨ file_type = .FallthroughString then
    -- Continue early (bad file type).
    acc
  else if (match recording.status with
           | some s => s != ZoomRecordingStatus.Completed
           | none => false) then
    -- Continue early (recording not completed).
    acc
  else
    let url := recording.download_url ++ "?access_token=" ++ env.accessToken
    let b := env.download url
    let mime_type := get_mime_type file_type
    let fileName :=
      env.kebab (rustTrim (String.replace meeting.topic (String.mk ['\'', 's']) ""))
        ++ to_extension file_type
    let driveFileId := env.fileId fileName
    let scan :=
      match file_type with
      | .Mp4 =>
        { scan with
            video := "https://drive.google.com/open?id=" ++ driveFileId
            video_html_link := "https://drive.google.com/open?id=" ++ driveFileId
            -- `DateTime::parse_from_rfc3339` then back to UTC; identity on
            -- the RFC3339-string model of times.
            end_time := recording.recording_end }
      | .Transcript =>
        { scan with transcript := b, transcript_id := recording.id }
      | .Chat =>
        { scan with
            chat_log_link := "https://drive.google.com/open?id=" ++ driveFileId
            chat_log := b }
      | _ => scan
    (scan,
      effects
        ++ [ .download url
           , .uploadFile env.sharedDriveId startFolderId fileName mime_type
           , .deleteRecording recording.meeting_id recording.id ])

/-- The body of the `for meeting in recordings` loop of
`refresh_zoom_recorded_meetings`: skip meetings without a topic, else
create the per-meeting folder, process every recording file, and upsert
the assembled `NewRecordedMeeting`. -/
def processZoomMeeting (env : ZoomEnv) (meeting : ZoomMeeting) : List ZoomEffect :=
  if meeting.topic.isEmpty then
    -- Continue early: "Meeting must have a topic!!".
    []
  else
    -- `meeting.start_time.unwrap().to_string()`; `None` would panic in Rust.
    let startName := meeting.start_time.getD ""
    let startFolderId := env.folderId startName
    let init : ZoomScan :=
      { transcript := "", transcript_id := "", video := "", video_html_link := ""
      , chat_log_link := "", chat_log := "", end_time := env.now }
    let (scan, fileEffects) :=
      meeting.recording_files.foldl (processZoomRecording env meeting startFolderId)
        (init, [])
    let host := env.host meeting.host_id
    let m : NewRecordedMeeting :=
      { name := rustTrim meeting.topic
      , description := ""
      , start_time := meeting.start_time.getD ""
      , end_time := scan.end_time
      , video := scan.video
      , chat_log_link := scan.chat_log_link
      , chat_log := scan.chat_log
      , is_recurring := false
      , attendees := [host.email]
      , transcript := scan.transcript
      , transcript_id := scan.transcript_id
      , location := "Meeting hosted by " ++ host.full_name
      , google_event_id := meeting.uuid
      , event_link := scan.video_html_link
      , cio_company_id := env.companyId }
    ZoomEffect.createFolder env.sharedDriveId env.recordingsFolderId startName
      :: fileEffects ++ [.upsertMeeting m]

/-- The meeting loop of `refresh_zoom_recorded_meetings` over the listed
recordings (the steps before the loop — authentication, listing, the
`zoom_recordings` folder — are environment setup). -/
def refresh_zoom_recorded_meetings (env : ZoomEnv) (recordings : List ZoomMeeting) :
    List ZoomEffect :=
  recordings.flatMap (processZoomMeeting env)

/-! ### `refresh_google_recorded_meetings` -/

/-- Embeds Rust `str::starts_with`: `s` begins with the pattern `pre`. -/
def rustStartsWith (s pre : String) : Bool :=
  pre.data.isPrefixOf s.data

/-- Embeds Rust `str::trim_start_matches`: repeatedly remove the prefix
`pat` from the front while it matches. -/
def trimStartMatchesList (pat : List Char) (s : List Char) : List Char :=
  if h : pat ≠ [] ∧ pat.isPrefixOf s then
    trimStartMatchesList pat (s.drop pat.length)
  else s
termination_by s.length
decreasing_by
  have hp := List.isPrefixOf_iff_prefix.mp h.2
  have hle := hp.length_le
  have hpos : 0 < pat.length := List.length_pos.mpr h.1
  simp [List.length_drop]
  omega

/-- Embeds Rust `str::trim_end_matches`: repeatedly remove the suffix
`pat` from the back while it matches. -/
def trimEndMatchesList (pat : List Char) (s : List Char) : List Char :=
  (trimStartMatchesList pat.reverse s.reverse).reverse

/-- The Drive-URL stripping applied before `download_file_by_id`:
`trim_start_matches("https://drive.google.com/open?id=")`,
`trim_start_matches("https://drive.google.com/file/d/")`,
`trim_end_matches("/view?usp=drive_web")`. -/
def driveFileIdOfUrl (u : String) : String :=
  String.mk
    (trimEndMatchesList "/view?usp=drive_web".data
      (trimStartMatchesList "https://drive.google.com/file/d/".data
        (trimStartMatchesList "https://drive.google.com/open?id=".data u.data)))

/-- One attachment of a calendar event. -/
structure EventAttachment where
  mime_type : String
  title : String
  file_url : String
deriving Repr, DecidableEq

/-- One attendee of a calendar event. -/
structure EventAttendee where
  email : String
  resource : Bool
deriving Repr, DecidableEq

/-- The fields of a Google Calendar event the refresh reads.
`event.start.unwrap().date_time.unwrap()` (and `end`) are flattened into
one optional RFC3339 string. -/
structure GcalEvent where
  id : String
  summary : String
  description : String
  start_time : Option String
  end_time : Option String
  attachments : List EventAttachment
  attendees : List EventAttendee
  recurring_event_id : String
  location : String
  html_link : String
deriving Repr, DecidableEq

/-- Results of the external calls the per-event processing makes:
the database lookup by event id, the Airtable lookup for that row,
Drive downloads by (stripped) file id, the rev.ai job id for a submitted
video, the rev.ai transcript fetch (`unwrap_or_default`, so a plain
string), and the id columns the upsert assigns. -/
structure GoogleEnv where
  existingDb : String → Option RecordedMeeting
  existingAirtable : RecordedMeeting → Option NewRecordedMeeting
  download : String → String
  jobId : String
  getTranscript : String → String
  dbId : Int
  airtableRecordId : String
  companyId : Int

/-- The externally observable actions of the per-event processing. -/
inductive GEffect
  | downloadFile (fileId : String)
  | upsertMeeting (m : NewRecordedMeeting)
  | createJob (contents : String)
  | getTranscript (transcriptId : String)
  | updateMeeting (m : RecordedMeeting)
deriving Repr, DecidableEq

/-- The `for attachment in event.attachments` loop selecting the video
link: the last `video/mp4` attachment whose title starts with the event
summary wins. -/
def selectVideo (event : GcalEvent) : String :=
  event.attachments.foldl
    (fun v a =>
      if a.mime_type = "video/mp4" ∧ rustStartsWith a.title event.summary then a.file_url else v)
    ""

/-- The same loop's selection of the chat-log link (`text/plain`
attachments). -/
def selectChatLogLink (event : GcalEvent) : String :=
  event.attachments.foldl
    (fun v a =>
      if a.mime_type = "text/plain" ∧ rustStartsWith a.title event.summary then a.file_url else v)
    ""

/-- The downloaded chat log: empty unless a chat-log link was found, else
the downloaded bytes decoded and trimmed. -/
def chatLogContents (env : GoogleEnv) (event : GcalEvent) : String :=
  if (selectChatLogLink event).isEmpty then ""
  else rustTrim (env.download (driveFileIdOfUrl (selectChatLogLink event)))

/-- The downloaded video bytes (`download_file_by_id(..).unwrap_or_default()`). -/
def videoContents (env : GoogleEnv) (event : GcalEvent) : String :=
  env.download (driveFileIdOfUrl (selectVideo event))

/-- The `NewRecordedMeeting` literal built for the event (lines 382-398
of `recorded_meetings.rs`), before the local/Airtable lookup. -/
def baseMeeting (env : GoogleEnv) (event : GcalEvent) : NewRecordedMeeting :=
  { name := rustTrim event.summary
  , description := rustTrim event.description
  -- `event.start.unwrap().date_time.unwrap()`; `None` would panic in Rust.
  , start_time := event.start_time.getD ""
  , end_time := event.end_time.getD ""
  , video := selectVideo event
  , chat_log_link := selectChatLogLink event
  , chat_log := chatLogContents env event
  , is_recurring := ¬event.recurring_event_id.isEmpty
  , attendees := (event.attendees.filter (fun a => !a.resource)).map (fun a => a.email)
  , transcript := ""
  , transcript_id := ""
  , location := event.location
  , google_event_id := event.id
  , event_link := event.html_link
  , cio_company_id := env.companyId }

/-- The local/Airtable lookup (lines 400-416): take transcript fields
from the database row when one exists, falling back to the Airtable
record for fields still empty. -/
def lookupMerge (dbRow : Option RecordedMeeting)
    (airtableOf : RecordedMeeting → Option NewRecordedMeeting)
    (meeting : NewRecordedMeeting) : NewRecordedMeeting :=
  match dbRow with
  | none => meeting
  | some m =>
    let meeting := { meeting with transcript := m.transcript, transcript_id := m.transcript_id }
    match airtableOf m with
    | none => meeting
    | some ar =>
      let meeting :=
        if meeting.transcript.isEmpty then { meeting with transcript := ar.transcript }
        else meeting
      if meeting.transcript_id.isEmpty then { meeting with transcript_id := ar.transcript_id }
      else meeting

/-- The row `meeting.upsert(db)` returns: the merged meeting with the id
columns the database assigns. -/
def dbMeeting (env : GoogleEnv) (event : GcalEvent) : RecordedMeeting :=
  { toNewRecordedMeeting :=
      lookupMerge (env.existingDb event.id) env.existingAirtable (baseMeeting env event)
  , id := env.dbId
  , airtable_record_id := env.airtableRecordId }

/-- The transcription tail (lines 421-445): only with non-empty video
bytes; submit a new rev.ai job when both transcript and transcript id
are empty, else poll for the transcript when it is still empty. -/
def transcriptionStep (env : GoogleEnv) (dbm : RecordedMeeting) (video_contents : String) :
    List GEffect :=
  if ¬video_contents.isEmpty then
    if dbm.transcript_id.isEmpty ∧ dbm.transcript.isEmpty then
      [ .createJob video_contents
      , .updateMeeting { dbm with transcript_id := env.jobId } ]
    else if dbm.transcript.isEmpty then
      [ .getTranscript dbm.transcript_id
      , .updateMeeting
          { dbm with transcript := rustTrim (env.getTranscript dbm.transcript_id) } ]
    else []
  else []

/-- The body of the `for event in events` loop of
`refresh_google_recorded_meetings`: skip events without attachments or
without a matching video attachment; otherwise download the chat log and
the video, upsert the merged meeting, and run the transcription tail.
(The `if video_contents.is_empty()` guard in the source has its
`continue` commented out, so empty bytes do not skip the event.) -/
def processGoogleEvent (env : GoogleEnv) (event : GcalEvent) : List GEffect :=
  if event.attachments.isEmpty then
    -- Continue early: no attachments.
    []
  else if (selectVideo event).isEmpty then
    -- Continue early: no video attachment.
    []
  else
    let chatEffects : List GEffect :=
      if (selectChatLogLink event).isEmpty then []
      else [.downloadFile (driveFileIdOfUrl (selectChatLogLink event))]
    let dbm := dbMeeting env event
    chatEffects
      ++ [ .downloadFile (driveFileIdOfUrl (selectVideo event))
         , .upsertMeeting dbm.toNewRecordedMeeting ]
      ++ transcriptionStep env dbm (videoContents env event)

/-! ## Shared lemmas -/

/-- Closed form of the zero-padding loop: it prepends `13 - |s|` zeros. -/
theorem padZeros_eq (s : List Char) :
    padZeros s = List.replicate (13 - s.length) '0' ++ s := by
  rw [padZeros]
  by_cases h : s.length < 13
  · rw [if_pos h, padZeros_eq ('0' :: s)]
    have h13 : 13 - s.length = (13 - ('0' :: s).length) + 1 := by
      simp only [List.length_cons]; omega
    rw [h13, List.replicate_succ' ..]
    simp [List.length_cons, List.append_assoc]
  · rw [if_neg h]
    have h0 : 13 - s.length = 0 := by omega
    simp [h0]
termination_by 13 - s.length
decreasing_by simp [List.length_cons]; omega

/-- The padding loop yields length `max 13 |s|`. -/
theorem padZeros_length (s : List Char) : (padZeros s).length = max 13 s.length := by
  rw [padZeros_eq]
  simp [List.length_append, List.length_replicate]
  omega

/-- Trimming only drops characters. -/
theorem mem_rustTrimList {c : Char} {l : List Char} (h : c ∈ rustTrimList l) : c ∈ l := by
  unfold rustTrimList at h
  rw [List.mem_reverse] at h
  have h1 := (List.dropWhile_sublist _).mem h
  rw [List.mem_reverse] at h1
  exact (List.dropWhile_sublist _).mem h1

/-- Every character of the cleaned name differs from each of the six
characters `generate_barcode` strips. -/
theorem mem_cleanName {c : Char} {name : String} (h : c ∈ (cleanName name).data) :
    c ≠ ' ' ∧ c ≠ '/' ∧ c ≠ '(' ∧ c ≠ ')' ∧ c ≠ '-' ∧ c ≠ '\'' := by
  unfold cleanName rustTrim at h
  have h2 := mem_rustTrimList h
  simp only [removeChar, List.mem_filter, decide_eq_true_eq] at h2
  tauto

/-! ## Claim theorems -/

/-- A `NewAssetItem` with every field empty, used to build concrete
inputs. -/
def emptyAssetItem : NewAssetItem :=
  { name := "", picture := "", type_ := "", qualities := [], status := ""
  , manufacturer := "", model_number := "", serial_number := "", purchase_price := 0
  , current_employee_borrowing := "", conference_room_using := [], notes := ""
  , barcode := "", barcode_png := "", barcode_svg := "", barcode_pdf_label := ""
  , cio_company_id := 0 }

/-- C1 counterexample: a name of 14 characters none of which is stripped
yields a 14-character barcode, not a 13-character one.  (The source only
pads short strings and prints a warning for long ones.) -/
theorem C1_counterexample :
    ((generate_barcode { emptyAssetItem with name := "AAAAAAAAAAAAAA" }).barcode).length ≠ 13 := by
  show (String.mk (padZeros (cleanName "AAAAAAAAAAAAAA").data)).length ≠ 13
  rw [String.length, padZeros_eq]
  decide

/-- C1 (amended): after `generate_barcode` the barcode has length
`max 13 |cleanName name|`: exactly 13 characters whenever the uppercased,
stripped, trimmed name has at most 13 characters; longer cleaned names
are stored unshortened. -/
theorem C1_barcode_length (item : NewAssetItem) :
    ((generate_barcode item).barcode).length = max 13 (cleanName item.name).length := by
  show (String.mk (padZeros (cleanName item.name).data)).length = _
  rw [String.length]
  exact padZeros_length (cleanName item.name).data

/-- ASCII punctuation (the POSIX `punct` class: codepoints 33-47, 58-64,
91-96, 123-126), used to state the spec's "contains no punctuation". -/
def isAsciiPunctuation (c : Char) : Bool :=
  (33 ≤ c.toNat && c.toNat ≤ 47) || (58 ≤ c.toNat && c.toNat ≤ 64)
    || (91 ≤ c.toNat && c.toNat ≤ 96) || (123 ≤ c.toNat && c.toNat ≤ 126)

/-- C4 counterexample: the name `"A.B"` keeps its dot, so the generated
barcode `"0000000000A.B"` contains a punctuation character. -/
theorem C4_counterexample :
    ((generate_barcode { emptyAssetItem with name := "A.B" }).barcode).data.any
      isAsciiPunctuation = true := by
  show (padZeros (cleanName "A.B").data).any isAsciiPunctuation = true
  rw [padZeros_eq]
  decide

/-- C4 (amended): the barcode contains none of the six characters the
source strips — space, `'/'`, `'('`, `')'`, `'-'`, `'\''`; other
punctuation can survive. -/
theorem C4_no_stripped_chars (item : NewAssetItem) :
    ((generate_barcode item).barcode).data.all
      (fun c => !(c == ' ' || c == '/' || c == '(' || c == ')' || c == '-' || c == '\'')) =
      true := by
  show (padZeros (cleanName item.name).data).all _ = true
  rw [padZeros_eq, List.all_append]
  refine Bool.and_eq_true_iff.mpr ⟨?_, ?_⟩
  · rw [List.all_eq_true]
    intro c hc
    rw [List.eq_of_mem_replicate hc]
    decide
  · rw [List.all_eq_true]
    intro c hc
    have h : c ≠ ' ' ∧ c ≠ '/' ∧ c ≠ '(' ∧ c ≠ ')' ∧ c ≠ '-' ∧ c ≠ '\'' :=
      mem_cleanName hc
    simp only [Bool.not_eq_true', Bool.or_eq_false_iff, beq_eq_false_iff_ne]
    tauto

/-- C7: `generate_barcode` is a deterministic function of the name: the
barcode is the cleaned (uppercased, stripped, trimmed) name left-padded
with `'0'` up to length 13, and equal names give equal barcodes. -/
theorem C7_barcode_deterministic (i1 i2 : NewAssetItem) (h : i1.name = i2.name) :
    (generate_barcode i1).barcode
        = String.mk (List.replicate (13 - (cleanName i1.name).length) '0'
            ++ (cleanName i1.name).data)
      ∧ (generate_barcode i1).barcode = (generate_barcode i2).barcode := by
  constructor
  · show String.mk (padZeros (cleanName i1.name).data) = _
    rw [padZeros_eq]
    rfl
  · show padBarcode (cleanName i1.name) = padBarcode (cleanName i2.name)
    rw [h]

/-- Witness for C7 at two concrete items sharing a name. -/
theorem C7_witness :
    (generate_barcode { emptyAssetItem with name := "Laptop-3/B" }).barcode
        = String.mk (List.replicate (13 - (cleanName "Laptop-3/B").length) '0'
            ++ (cleanName "Laptop-3/B").data)
      ∧ (generate_barcode { emptyAssetItem with name := "Laptop-3/B" }).barcode
        = (generate_barcode
            { emptyAssetItem with name := "Laptop-3/B", type_ := "hardware" }).barcode :=
  C7_barcode_deterministic
    { emptyAssetItem with name := "Laptop-3/B" }
    { emptyAssetItem with name := "Laptop-3/B", type_ := "hardware" }
    rfl

/-- A `NewRecordedMeeting` with every field empty, used to build concrete
inputs. -/
def emptyNewMeeting : NewRecordedMeeting :=
  { name := "", description := "", start_time := "", end_time := "", video := ""
  , chat_log_link := "", chat_log := "", is_recurring := false, attendees := []
  , transcript := "", transcript_id := "", google_event_id := "", event_link := ""
  , location := "", cio_company_id := 0 }

/-- The freshly-fetched database record for the C2 counterexample. -/
def meetingLocal : RecordedMeeting :=
  { toNewRecordedMeeting :=
      { emptyNewMeeting with transcript := "local words", transcript_id := "local-id" }
  , id := 1, airtable_record_id := "recA" }

/-- The existing Airtable record for the C2 counterexample. -/
def meetingAirtable : RecordedMeeting :=
  { toNewRecordedMeeting :=
      { emptyNewMeeting with transcript := "airtable words", transcript_id := "airtable-id" }
  , id := 1, airtable_record_id := "recA" }

/-- C2 counterexample: with both transcripts non-empty the merge keeps the
existing Airtable value, not the freshly-fetched one (and likewise for
`transcript_id`). -/
theorem C2_counterexample :
    meetingLocal.transcript ≠ ""
      ∧ (update_airtable_record meetingLocal meetingAirtable).transcript
          ≠ meetingLocal.transcript
      ∧ (update_airtable_record meetingLocal meetingAirtable).transcript
          = meetingAirtable.transcript
      ∧ (update_airtable_record meetingLocal meetingAirtable).transcript_id
          = meetingAirtable.transcript_id := by
  refine ⟨by decide, by decide, by decide, by decide⟩

/-- C2 (amended): the merge prefers the non-empty existing Airtable value
and falls back to the freshly-fetched database value only when the
Airtable value is empty; the merged transcript is then truncated to
100000 characters. -/
theorem C2_merge_characterization (self record : RecordedMeeting) :
    (update_airtable_record self record).transcript
        = truncate (if record.transcript.isEmpty then self.transcript else record.transcript)
            100000
      ∧ (update_airtable_record self record).transcript_id
        = (if record.transcript_id.isEmpty then self.transcript_id
           else record.transcript_id) := by
  unfold update_airtable_record
  by_cases h1 : record.transcript_id.isEmpty <;> by_cases h2 : record.transcript.isEmpty <;>
    simp [h1, h2]

/-- `truncate` never returns more than `n` characters. -/
theorem truncate_length_le (s : String) (n : Nat) : (truncate s n).length ≤ n := by
  show (s.data.take n).length ≤ n
  rw [List.length_take ..]
  omega

/-- C10: after the merge the transcript is at most 100000 characters. -/
theorem C10_transcript_bounded (self record : RecordedMeeting) :
    (update_airtable_record self record).transcript.length ≤ 100000 :=
  truncate_length_le _ 100000

/-- C5: the label PDF's page `MediaBox` is exactly `[0, 0, 216, 144]`
(3in × 2in at 72 points per inch), for every item and any image
dimensions. -/
theorem C5_mediabox (item : NewAssetItem) (logoInfo pngInfo : ImageInfo) :
    (generate_pdf_barcode_label item logoInfo pngInfo).mediaBox = [0, 0, 216, 144] := by
  show [0, 0, (3 : ℚ) * 72, (2 : ℚ) * 72] = [0, 0, 216, 144]
  norm_num

/-- C6 counterexample: a whitespace-only `barcode_pdf_label` is a
non-empty string, yet `print_label` sends no request at all (the source
tests `trim().is_empty()`). -/
theorem C6_counterexample :
    ({ toNewAssetItem := { emptyAssetItem with barcode_pdf_label := " " }
     , id := 1, airtable_record_id := "" } : AssetItem).barcode_pdf_label ≠ ""
      ∧ ({ id := 1, printer_url := "http://printer.internal" } : Company).printer_url ≠ ""
      ∧ (print_label
          { toNewAssetItem := { emptyAssetItem with barcode_pdf_label := " " }
          , id := 1, airtable_record_id := "" }
          { id := 1, printer_url := "http://printer.internal" }
          { status := 202, body := "" }).1 = [] := by
  refine ⟨by decide, by decide, by decide⟩

/-- C6 (amended): for an item whose `barcode_pdf_label` is non-empty
after trimming and a company with a non-empty `printer_url`, exactly one
POST to `<printer_url>/zebra` with body `{url, quantity: 1}` is sent;
the call returns normally on HTTP 202 and panics on every other
status. -/
theorem C6_print_label_posts (item : AssetItem) (company : Company) (resp : HttpResponse)
    (hlabel : (rustTrim item.barcode_pdf_label).isEmpty = false)
    (hprinter : company.printer_url.isEmpty = false) :
    (print_label item company resp).1
        = [{ url := company.printer_url ++ "/zebra"
           , body := { url := item.barcode_pdf_label, quantity := 1 } }]
      ∧ (resp.status = 202 → (print_label item company resp).2 = .ok ())
      ∧ (resp.status ≠ 202 → ∃ msg, (print_label item company resp).2 = .error msg) := by
  unfold print_label
  rw [hlabel, hprinter]
  by_cases h : resp.status = 202 <;> simp [h]

/-- Witness for C6 at a concrete item, company and 202 response. -/
theorem C6_witness :
    (rustTrim ({ toNewAssetItem := { emptyAssetItem with barcode_pdf_label := "http://x/l.pdf" }
               , id := 1, airtable_record_id := "" } : AssetItem).barcode_pdf_label).isEmpty
        = false
      ∧ ({ id := 1, printer_url := "http://printer.internal" } : Company).printer_url.isEmpty
        = false
      ∧ ((print_label
            { toNewAssetItem := { emptyAssetItem with barcode_pdf_label := "http://x/l.pdf" }
            , id := 1, airtable_record_id := "" }
            { id := 1, printer_url := "http://printer.internal" }
            { status := 202, body := "" }).1
            = [{ url := ({ id := 1, printer_url := "http://printer.internal" } : Company).printer_url
                          ++ "/zebra"
               , body := { url := "http://x/l.pdf", quantity := 1 } }]
          ∧ (({ status := 202, body := "" } : HttpResponse).status = 202 →
              (print_label
                { toNewAssetItem := { emptyAssetItem with barcode_pdf_label := "http://x/l.pdf" }
                , id := 1, airtable_record_id := "" }
                { id := 1, printer_url := "http://printer.internal" }
                { status := 202, body := "" }).2 = .ok ())
          ∧ (({ status := 202, body := "" } : HttpResponse).status ≠ 202 →
              ∃ msg, (print_label
                { toNewAssetItem := { emptyAssetItem with barcode_pdf_label := "http://x/l.pdf" }
                , id := 1, airtable_record_id := "" }
                { id := 1, printer_url := "http://printer.internal" }
                { status := 202, body := "" }).2 = .error msg)) :=
  ⟨by decide, by decide,
    C6_print_label_posts
      { toNewAssetItem := { emptyAssetItem with barcode_pdf_label := "http://x/l.pdf" }
      , id := 1, airtable_record_id := "" }
      { id := 1, printer_url := "http://printer.internal" }
      { status := 202, body := "" }
      (by decide) (by decide)⟩

/-- C8: with an empty-after-trim `barcode_pdf_label` or an empty
`printer_url`, `print_label` sends no HTTP request and returns normally
(the function takes `&self` and modifies nothing). -/
theorem C8_print_label_skips (item : AssetItem) (company : Company) (resp : HttpResponse)
    (h : (rustTrim item.barcode_pdf_label).isEmpty = true
          ∨ company.printer_url.isEmpty = true) :
    print_label item company resp = ([], .ok ()) := by
  unfold print_label
  rcases h with h | h
  · rw [if_pos h]
  · by_cases h2 : (rustTrim item.barcode_pdf_label).isEmpty = true
    · rw [if_pos h2]
    · rw [if_neg h2, if_pos h]

/-- Witness for C8 at a concrete item with a whitespace-only label. -/
theorem C8_witness :
    ((rustTrim ({ toNewAssetItem := { emptyAssetItem with barcode_pdf_label := "  " }
                , id := 2, airtable_record_id := "" } : AssetItem).barcode_pdf_label).isEmpty
        = true
      ∨ ({ id := 2, printer_url := "http://printer.internal" } : Company).printer_url.isEmpty
        = true)
      ∧ print_label
          { toNewAssetItem := { emptyAssetItem with barcode_pdf_label := "  " }
          , id := 2, airtable_record_id := "" }
          { id := 2, printer_url := "http://printer.internal" }
          { status := 500, body := "err" } = ([], .ok ()) :=
  ⟨Or.inl (by decide),
    C8_print_label_skips
      { toNewAssetItem := { emptyAssetItem with barcode_pdf_label := "  " }
      , id := 2, airtable_record_id := "" }
      { id := 2, printer_url := "http://printer.internal" }
      { status := 500, body := "err" }
      (Or.inl (by decide))⟩

/-- C9: a Zoom meeting with an empty topic is skipped entirely — no
folder creation, no file processing, no upsert — and the loop continues
with the remaining meetings unchanged. -/
theorem C9_zoom_skip_no_topic (env : ZoomEnv) (m : ZoomMeeting) (rest : List ZoomMeeting)
    (h : m.topic.isEmpty = true) :
    processZoomMeeting env m = []
      ∧ refresh_zoom_recorded_meetings env (m :: rest)
          = refresh_zoom_recorded_meetings env rest := by
  have h1 : processZoomMeeting env m = [] := by
    unfold processZoomMeeting
    rw [if_pos h]
  exact ⟨h1, by simp [refresh_zoom_recorded_meetings, h1]⟩

/-- A concrete environment for the C9 witness. -/
def zoomEnv0 : ZoomEnv :=
  { sharedDriveId := "drive0", recordingsFolderId := "folder0"
  , folderId := fun _ => "f0", fileId := fun _ => "file0"
  , download := fun _ => "", host := fun _ => { email := "a@b.c", full_name := "A B" }
  , kebab := fun s => s, accessToken := "tok", now := "2021-06-01T00:00:00Z"
  , companyId := 1 }

/-- A Zoom meeting with an empty topic for the C9 witness. -/
def zoomMeetingNoTopic : ZoomMeeting :=
  { topic := "", start_time := some "2021-06-01T00:00:00Z", host_id := "h0", uuid := "u0"
  , recording_files :=
      [{ file_type := some .Mp4, status := some .Completed
       , download_url := "https://zoom/dl", recording_end := "2021-06-01T01:00:00Z"
       , id := "r0", meeting_id := "m0" }] }

/-- A Zoom meeting with a topic for the C9 witness tail. -/
def zoomMeetingTopic : ZoomMeeting :=
  { topic := "Weekly sync", start_time := some "2021-06-02T00:00:00Z", host_id := "h0"
  , uuid := "u1", recording_files := [] }

/-- Witness for C9 at a concrete meeting whose topic is empty. -/
theorem C9_witness :
    processZoomMeeting zoomEnv0 zoomMeetingNoTopic = []
      ∧ refresh_zoom_recorded_meetings zoomEnv0 (zoomMeetingNoTopic :: [zoomMeetingTopic])
          = refresh_zoom_recorded_meetings zoomEnv0 [zoomMeetingTopic] :=
  C9_zoom_skip_no_topic zoomEnv0 zoomMeetingNoTopic [zoomMeetingTopic] (by decide)

/-- An event with no matching video attachment selects the empty video
link. -/
theorem selectVideo_of_no_attachments (event : GcalEvent)
    (h : event.attachments = []) : selectVideo event = "" := by
  rw [selectVideo, h]
  rfl

/-- C3: for an event with a (non-empty) video attachment, a new
transcription job is created — and its id stored via `updateMeeting` —
iff the downloaded bytes are non-empty and both `transcript` and
`transcript_id` are empty after the local/Airtable lookup; with a pending
`transcript_id` and an empty transcript, the job is polled and no new job
is submitted. -/
theorem C3_transcription_decision (env : GoogleEnv) (event : GcalEvent)
    (hvid : (selectVideo event).isEmpty = false) :
    ((∃ b, GEffect.createJob b ∈ processGoogleEvent env event)
        ↔ ((videoContents env event).isEmpty = false
            ∧ (dbMeeting env event).transcript.isEmpty = true
            ∧ (dbMeeting env event).transcript_id.isEmpty = true))
      ∧ ((videoContents env event).isEmpty = false →
            (dbMeeting env event).transcript.isEmpty = true →
            (dbMeeting env event).transcript_id.isEmpty = true →
            GEffect.updateMeeting { dbMeeting env event with transcript_id := env.jobId }
              ∈ processGoogleEvent env event)
      ∧ ((videoContents env event).isEmpty = false →
            (dbMeeting env event).transcript_id.isEmpty = false →
            (dbMeeting env event).transcript.isEmpty = true →
            (GEffect.getTranscript (dbMeeting env event).transcript_id
                ∈ processGoogleEvent env event
              ∧ ∀ b, GEffect.createJob b ∉ processGoogleEvent env event)) := by
  have hatt : event.attachments.isEmpty = false := by
    cases hA : event.attachments.isEmpty
    · rfl
    · exfalso
      have hnil : event.attachments = [] := by
        cases hE : event.attachments with
        | nil => rfl
        | cons a l => rw [hE] at hA; simp [List.isEmpty] at hA
      rw [selectVideo_of_no_attachments event hnil] at hvid
      exact absurd hvid (by decide)
  unfold processGoogleEvent transcriptionStep
  by_cases hchat : (selectChatLogLink event).isEmpty <;>
    by_cases hvc : (videoContents env event).isEmpty <;>
    by_cases htr : (dbMeeting env event).transcript.isEmpty <;>
    by_cases hid : (dbMeeting env event).transcript_id.isEmpty <;>
    simp [hatt, hvid, hchat, hvc, htr, hid]

/-- A concrete environment for the C3 witness: no existing database or
Airtable record, non-empty downloaded bytes. -/
def googleEnv0 : GoogleEnv :=
  { existingDb := fun _ => none
  , existingAirtable := fun _ => none
  , download := fun _ => "videobytes"
  , jobId := "job-1"
  , getTranscript := fun _ => ""
  , dbId := 7
  , airtableRecordId := "recG"
  , companyId := 1 }

/-- A concrete calendar event with one matching video attachment for the
C3 witness. -/
def gcalEvent0 : GcalEvent :=
  { id := "ev1", summary := "Weekly sync", description := "weekly notes"
  , start_time := some "2021-06-01T10:00:00Z", end_time := some "2021-06-01T11:00:00Z"
  , attachments :=
      [{ mime_type := "video/mp4", title := "Weekly sync recording"
       , file_url := "https://drive.google.com/open?id=abc123" }]
  , attendees := [{ email := "a@b.c", resource := false }]
  , recurring_event_id := "", location := "HQ", html_link := "https://cal/ev1" }

/-- Witness for C3 at the concrete environment and event. -/
theorem C3_witness :
    ((∃ b, GEffect.createJob b ∈ processGoogleEvent googleEnv0 gcalEvent0)
        ↔ ((videoContents googleEnv0 gcalEvent0).isEmpty = false
            ∧ (dbMeeting googleEnv0 gcalEvent0).transcript.isEmpty = true
            ∧ (dbMeeting googleEnv0 gcalEvent0).transcript_id.isEmpty = true))
      ∧ ((videoContents googleEnv0 gcalEvent0).isEmpty = false →
            (dbMeeting googleEnv0 gcalEvent0).transcript.isEmpty = true →
            (dbMeeting googleEnv0 gcalEvent0).transcript_id.isEmpty = true →
            GEffect.updateMeeting
                { dbMeeting googleEnv0 gcalEvent0 with transcript_id := googleEnv0.jobId }
              ∈ processGoogleEvent googleEnv0 gcalEvent0)
      ∧ ((videoContents googleEnv0 gcalEvent0).isEmpty = false →
            (dbMeeting googleEnv0 gcalEvent0).transcript_id.isEmpty = false →
            (dbMeeting googleEnv0 gcalEvent0).transcript.isEmpty = true →
            (GEffect.getTranscript (dbMeeting googleEnv0 gcalEvent0).transcript_id
                ∈ processGoogleEvent googleEnv0 gcalEvent0
              ∧ ∀ b, GEffect.createJob b ∉ processGoogleEvent googleEnv0 gcalEvent0)) :=
  C3_transcription_decision googleEnv0 gcalEvent0 (by decide)

end Cio
